import Mathlib

/-!
Verification of the audio dataset pipeline in `src/dataloader_mayo.py`
(`AudioDataset`): chain construction (`_getaudiotransform`,
`_getspectransform`, `__init__`), sample production (`__getitem__`) and
`__len__`.  The transform classes themselves (`UidToWaveform`, `Wav2Fbank`,
`FreqMask`, ...) live in `utilities/dataloader_utils.py`, which is not part
of the sources; their behaviour is modelled from the specification and each
such definition is marked `Modelled from the spec`.
-/

namespace NaipSSAST

/-- A pandas cell value: either a number or NaN (missing label). -/
inductive PVal where
  | nan : PVal
  | num (q : ℚ) : PVal
deriving DecidableEq, Repr

/-- The annotation dataframe: an index of uid strings plus named label
columns (source `annotations_df`). -/
structure AnnTable where
  index : List String
  columns : List (String × List PVal)
deriving DecidableEq, Repr

/-- The audio configuration dictionary (`audio_conf`).  Keys that the
claims probe for absence (`mean`, `std`, `skip_norm`) are `Option`s, the
rest are modelled as present. -/
structure AudioConf where
  resample_rate : Nat
  reduce : Bool
  clip_length : Nat
  tshift : ℚ
  speed : ℚ
  gauss : ℚ
  pshift : ℚ
  pshiftn : ℚ
  gain : ℚ
  stretch : ℚ
  num_mel_bins : Nat
  freqm : Nat
  timem : Nat
  mean : Option ℚ
  std : Option ℚ
  skip_norm : Option Bool
  noise : Bool
  target_length : Nat
deriving DecidableEq, Repr

/-- `self.skip_norm = self.audio_conf.get('skip_norm') if
self.audio_conf.get('skip_norm') else False` (line 98). -/
def skipNormFlag (c : AudioConf) : Bool := c.skip_norm.getD false

/-- Python exceptions that the pipeline can raise. -/
inductive PyError where
  | notFoundError : PyError
  | emptyAudioError : PyError
  | indexError : PyError
  | keyError (col : String) : PyError
  | typeError (msg : String) : PyError
  | attributeError (msg : String) : PyError
deriving DecidableEq, Repr

/-- Stages of the standard audio transform list built by
`_getaudiotransform` (lines 136-154). -/
inductive AudioStage where
  | uidToWaveform : AudioStage
  | toMonophonic : AudioStage
  | resample (rate : Nat) : AudioStage
  | truncate (len : Nat) : AudioStage
  | toTensor : AudioStage
  | waveMean : AudioStage
deriving DecidableEq, Repr

/-- Albumentations augmentation stages built by `_getaudiotransform`
(lines 157-183); each carries its activation probability. -/
inductive AlStage where
  | timeShifting (p : ℚ) : AlStage
  | speedTuning (p : ℚ) : AlStage
  | addGaussianNoise (p : ℚ) : AlStage
  | pitchShift (p : ℚ) (n_steps : ℚ) : AlStage
  | gainStage (p : ℚ) : AlStage
  | stretchAudio (p : ℚ) : AlStage
deriving DecidableEq, Repr

/-- Spectrogram transform stages built by `_getspectransform`
(lines 203-218). -/
inductive SpecStage where
  | wav2fbank (target_length melbins : Nat) (tf_co tf_shift : Bool) : SpecStage
  | freqMask (w : Nat) : SpecStage
  | timeMask (w : Nat) : SpecStage
  | normalize (mean std : Option ℚ) : SpecStage
  | noiseAdd : SpecStage
deriving DecidableEq, Repr

/-- `_getaudiotransform` (lines 126-193): builds the standard transform
list and the albumentations list exactly as the source appends them. -/
def getaudiotransform (c : AudioConf) : List AudioStage × List AlStage :=
  let transform_list := [AudioStage.uidToWaveform]
  let transform_list :=
    if c.reduce then transform_list ++ [AudioStage.toMonophonic] else transform_list
  let transform_list :=
    if c.resample_rate ≠ 0 then transform_list ++ [AudioStage.resample c.resample_rate]
    else transform_list
  let transform_list :=
    if c.clip_length ≠ 0 then transform_list ++ [AudioStage.truncate c.clip_length]
    else transform_list
  let transform_list := transform_list ++ [AudioStage.toTensor, AudioStage.waveMean]
  let al_transform : List AlStage := []
  let al_transform :=
    if c.tshift ≠ 0 then al_transform ++ [AlStage.timeShifting c.tshift] else al_transform
  let al_transform :=
    if c.speed ≠ 0 then al_transform ++ [AlStage.speedTuning c.speed] else al_transform
  let al_transform :=
    if c.gauss ≠ 0 then al_transform ++ [AlStage.addGaussianNoise c.gauss] else al_transform
  let al_transform :=
    if c.pshift ≠ 0 then al_transform ++ [AlStage.pitchShift c.pshift c.pshiftn]
    else al_transform
  let al_transform :=
    if c.gain ≠ 0 then al_transform ++ [AlStage.gainStage c.gain] else al_transform
  let al_transform :=
    if c.stretch ≠ 0 then al_transform ++ [AlStage.stretchAudio c.stretch] else al_transform
  (transform_list, al_transform)

/-- `_getspectransform` (lines 195-219): builds the spectrogram transform
list; `tf_co`/`tf_shift` flag the optional masking transforms handed to
`Wav2Fbank`. -/
def getspectransform (c : AudioConf) (tf_co tf_shift : Bool) : List SpecStage :=
  let transform_list := [SpecStage.wav2fbank c.target_length c.num_mel_bins tf_co tf_shift]
  let transform_list :=
    if c.freqm ≠ 0 then transform_list ++ [SpecStage.freqMask c.freqm] else transform_list
  let transform_list :=
    if c.timem ≠ 0 then transform_list ++ [SpecStage.timeMask c.timem] else transform_list
  let transform_list :=
    if skipNormFlag c = false then transform_list ++ [SpecStage.normalize c.mean c.std]
    else transform_list
  let transform_list :=
    if c.noise then transform_list ++ [SpecStage.noiseAdd] else transform_list
  transform_list

/-- The constructed dataset object (instance attributes set by
`AudioDataset.__init__`).  Source field `annotations_df` is `ann_df`,
source field holding the file-location string is `pfx` here. -/
structure AudioDataset where
  ann_df : AnnTable
  target_labels : List String
  pfx : String
  resample_rate : Nat
  reduce : Bool
  clip_length : Nat
  tshift : ℚ
  speed : ℚ
  gauss : ℚ
  pshift : ℚ
  pshiftn : ℚ
  gain : ℚ
  stretch : ℚ
  melbins : Nat
  freqm : Nat
  timem : Nat
  norm_mean : Option ℚ
  norm_std : Option ℚ
  skip_norm : Bool
  noise : Bool
  target_length : Nat
  label_num : Nat
  tf_co : Bool
  tf_shift : Bool
  audio_transform : List AudioStage
  al_transform : List AlStage
  spec_transform : List SpecStage
deriving DecidableEq, Repr

/-- `AudioDataset.__init__` (lines 36-123).  Fallible because:
line 102 formats `mean`/`std` with `{:.3f}` when normalization is not
skipped, which raises `TypeError` when either is `None` (absent key);
lines 113/118 evaluate `torch.CoarseDropout` / `torch.Affine`, attributes
that do not exist in the `torch` module (they are `albumentations`
classes), raising `AttributeError` whenever `cdo` or `shift` is true. -/
def AudioDataset.init (ann_df : AnnTable) (target_labels : List String)
    (audio_conf : AudioConf) (pfx : String) (cdo : Bool) (shift : Bool) :
    Except PyError AudioDataset :=
  if skipNormFlag audio_conf = false ∧ (audio_conf.mean = none ∨ audio_conf.std = none) then
    Except.error (PyError.typeError "unsupported format string passed to NoneType.__format__")
  else if cdo then
    Except.error (PyError.attributeError "module torch has no attribute CoarseDropout")
  else if shift then
    Except.error (PyError.attributeError "module torch has no attribute Affine")
  else
    Except.ok
      { ann_df := ann_df
        target_labels := target_labels
        pfx := pfx
        resample_rate := audio_conf.resample_rate
        reduce := audio_conf.reduce
        clip_length := audio_conf.clip_length
        tshift := audio_conf.tshift
        speed := audio_conf.speed
        gauss := audio_conf.gauss
        pshift := audio_conf.pshift
        pshiftn := audio_conf.pshiftn
        gain := audio_conf.gain
        stretch := audio_conf.stretch
        melbins := audio_conf.num_mel_bins
        freqm := audio_conf.freqm
        timem := audio_conf.timem
        norm_mean := audio_conf.mean
        norm_std := audio_conf.std
        skip_norm := skipNormFlag audio_conf
        noise := audio_conf.noise
        target_length := audio_conf.target_length
        label_num := target_labels.length
        tf_co := false
        tf_shift := false
        audio_transform := (getaudiotransform audio_conf).1
        al_transform := (getaudiotransform audio_conf).2
        spec_transform := getspectransform audio_conf false false }

/-! ## Execution semantics of the stages

The stage classes live in `utilities/dataloader_utils.py`, which is not in
the sources; their behaviour is modelled from the specification.  Waveform
sample values are rationals; a waveform is a channel list of sample
lists. -/

/-- The sample dictionary flowing through the pipeline
(`__getitem__` docstring, lines 231-236). -/
structure Sample where
  uid : String
  targets : List PVal
  waveform : Option (List (List ℚ))
  sample_rate : Nat
  fbank : Option (List (List ℚ))
deriving DecidableEq, Repr

/-- External audio storage (local files or GCS bucket): uid to
(waveform, sample rate). -/
structure Ctx where
  files : List (String × (List (List ℚ) × Nat))

/-- Total number of samples across channels. -/
def numSamples (w : List (List ℚ)) : Nat := (w.map List.length).sum

/-- `channel_sum = lambda w: torch.sum(w, axis = 0).unsqueeze(0)`
(line 139): pointwise sum of all channels into one channel. -/
def sumChannels : List (List ℚ) → List ℚ
  | [] => []
  | c :: cs => cs.foldl (fun a b => a.zipWith (· + ·) b) c

/-- Modelled from the spec: nearest-neighbour resampling of one channel
from rate `oldR` to rate `newR` (`Resample` class is missing from the
sources; the spec fixes only that data is resampled to the target rate). -/
def resampleList (xs : List ℚ) (oldR newR : Nat) : List ℚ :=
  (List.range (xs.length * newR / oldR)).map fun i => xs.getD (i * oldR / newR) 0

/-- Mean amplitude over the whole waveform. -/
def waveMeanVal (w : List (List ℚ)) : ℚ :=
  ((w.map fun c => c.sum).sum) / (numSamples w : ℚ)

/-- Modelled from the spec: semantics of one standard audio stage
(`UidToWaveform`, `ToMonophonic`, `Resample`, `Truncate`, `ToTensor`,
`WaveMean` classes, missing from the sources).  Loading fails with
`NotFoundError` when the uid resolves to no resource; a stage receiving a
zero-length waveform fails with `EmptyAudioError`. -/
def runAudioStage (ctx : Ctx) : AudioStage → Sample → Except PyError Sample
  | AudioStage.uidToWaveform, s =>
    match ctx.files.lookup s.uid with
    | none => Except.error PyError.notFoundError
    | some (w, sr) => Except.ok { s with waveform := some w, sample_rate := sr }
  | AudioStage.toMonophonic, s =>
    match s.waveform with
    | none => Except.error (PyError.typeError "waveform missing")
    | some w =>
      if numSamples w = 0 then Except.error PyError.emptyAudioError
      else Except.ok { s with waveform := some [sumChannels w] }
  | AudioStage.resample r, s =>
    match s.waveform with
    | none => Except.error (PyError.typeError "waveform missing")
    | some w =>
      if numSamples w = 0 then Except.error PyError.emptyAudioError
      else if s.sample_rate = r then Except.ok s
      else Except.ok { s with
        waveform := some (w.map fun c => resampleList c s.sample_rate r),
        sample_rate := r }
  | AudioStage.truncate len, s =>
    match s.waveform with
    | none => Except.error (PyError.typeError "waveform missing")
    | some w =>
      if numSamples w = 0 then Except.error PyError.emptyAudioError
      else Except.ok { s with waveform := some (w.map (List.take (len * s.sample_rate))) }
  | AudioStage.toTensor, s => Except.ok s
  | AudioStage.waveMean, s =>
    match s.waveform with
    | none => Except.error (PyError.typeError "waveform missing")
    | some w =>
      if numSamples w = 0 then Except.error PyError.emptyAudioError
      else Except.ok { s with waveform := some (w.map fun c => c.map (· - waveMeanVal w)) }

/-- `transforms.Compose` over the standard stage list. -/
def runAudioChain (ctx : Ctx) (l : List AudioStage) (s : Sample) : Except PyError Sample :=
  l.foldlM (fun s st => runAudioStage ctx st s) s

/-- A stream of pseudo-random naturals consumed by the stochastic stages. -/
abbrev Rng := List Nat

/-- Pop one value from the random stream. -/
def rdraw : Rng → Nat × Rng
  | [] => (0, [])
  | n :: t => (n, t)

/-- Per-call coin flip with activation probability `p` (albumentations
`p=` semantics). -/
def coin (p : ℚ) (r : Rng) : Bool × Rng :=
  let (n, r1) := rdraw r
  (((n % 100 : Nat) : ℚ) / 100 < p, r1)

/-- The configured activation probability of an augmentation stage. -/
def AlStage.prob : AlStage → ℚ
  | AlStage.timeShifting p => p
  | AlStage.speedTuning p => p
  | AlStage.addGaussianNoise p => p
  | AlStage.pitchShift p _ => p
  | AlStage.gainStage p => p
  | AlStage.stretchAudio p => p

/-- Modelled from the spec: the waveform effect of an augmentation stage
once its coin flip fires (classes `TimeShifting`, `SpeedTuning`,
`AddGaussianNoise`, `PitchShift`, `Gain`, `StretchAudio`, missing from the
sources).  Each effect preserves the channel count; speed/stretch may
change duration. -/
def applyAug : AlStage → Rng → List (List ℚ) → Rng × List (List ℚ)
  | AlStage.timeShifting _, r, w =>
    let (n, r1) := rdraw r
    (r1, w.map fun c => c.drop (n % (c.length + 1)) ++ c.take (n % (c.length + 1)))
  | AlStage.speedTuning _, r, w =>
    let (n, r1) := rdraw r
    (r1, w.map fun c => c.take (c.length * (90 + n % 20) / 100))
  | AlStage.addGaussianNoise _, r, w =>
    let (n, r1) := rdraw r
    (r1, w.map fun c => c.map fun x => x + (((n % 21 : Nat) : ℚ) - 10) / 100)
  | AlStage.pitchShift _ steps, r, w =>
    (r, w.map fun c => c.map fun x => x + steps / 100)
  | AlStage.gainStage _, r, w =>
    let (n, r1) := rdraw r
    (r1, w.map fun c => c.map fun x => x * ((100 + ((n % 20 : Nat) : ℚ)) / 100))
  | AlStage.stretchAudio _, r, w =>
    let (n, r1) := rdraw r
    (r1, w.map fun c => c.take (c.length * (90 + n % 20) / 100))

/-- One augmentation stage on the sample: coin flip, then the effect on the
waveform only. -/
def runAlStage (st : AlStage) (r : Rng) (s : Sample) : Rng × Sample :=
  match s.waveform with
  | none => (r, s)
  | some w =>
    let c := coin st.prob r
    if c.1 then
      let aw := applyAug st c.2 w
      (aw.1, { s with waveform := some aw.2 })
    else (c.2, s)

/-- `albumentations.Compose` over the augmentation list. -/
def runAlChain (l : List AlStage) (r : Rng) (s : Sample) : Rng × Sample :=
  l.foldl (fun pr st => runAlStage st pr.1 pr.2) (r, s)

/-- The guard in `__getitem__` line 253: the augmentation chain runs only
when the list is non-empty (`if self.al_transform != []`). -/
def applyAlGuard (l : List AlStage) (r : Rng) (s : Sample) : Rng × Sample :=
  if l ≠ [] then runAlChain l r s else (r, s)

/-- Modelled from the spec: number of spectrogram frames produced for a
waveform of `n` samples under the fixed window/hop configuration
(`Wav2Fbank`, missing from the sources; hop of 160 samples). -/
def melFrames (n : Nat) : Nat := n / 160 + 1

/-- Modelled from the spec: mel-filterbank conversion producing
`melFrames` rows of `melbins` energies each (`Wav2Fbank`, missing from the
sources; only the shape behaviour is fixed by the spec). -/
def rawFbank (wav : List ℚ) (melbins : Nat) : List (List ℚ) :=
  (List.range (melFrames wav.length)).map fun i =>
    (List.range melbins).map fun j => wav.getD (i * 160 + j) 0

/-- Modelled from the spec: coarse dropout on the feature map, a
shape-preserving zeroing of holes. -/
def coarseDropoutTf (fb : List (List ℚ)) : List (List ℚ) :=
  fb.mapIdx fun i row => row.mapIdx fun j x => if i % 3 = 0 ∧ j % 3 = 0 then 0 else x

/-- Modelled from the spec: affine translation of the feature map along the
frame axis, shape preserving. -/
def affineShiftTf (fb : List (List ℚ)) : List (List ℚ) :=
  fb.mapIdx fun i row => row.mapIdx fun j _ => (fb.getD (i + 1) []).getD j 0

/-- Modelled from the spec: the frame-count fix of `Wav2Fbank` — the frame
axis is forced to exactly `target_length` rows by zero-padding at the end
(shorter) or truncation (longer). -/
def fixFrames (target_length melbins : Nat) (fb : List (List ℚ)) : List (List ℚ) :=
  if fb.length < target_length then
    fb ++ List.replicate (target_length - fb.length) (List.replicate melbins 0)
  else fb.take target_length

/-- Zero a band of time frames `[start, start + width)`. -/
def zeroRowsBand (fb : List (List ℚ)) (start width : Nat) : List (List ℚ) :=
  fb.mapIdx fun i row => if start ≤ i ∧ i < start + width then row.map (fun _ => 0) else row

/-- Zero a band of frequency bins `[start, start + width)`. -/
def zeroColsBand (fb : List (List ℚ)) (start width : Nat) : List (List ℚ) :=
  fb.map fun row => row.mapIdx fun j x => if start ≤ j ∧ j < start + width then 0 else x

/-- Modelled from the spec: semantics of one spectrogram stage
(`Wav2Fbank`, `FreqMask`, `TimeMask`, `Normalize`, `Noise` classes,
missing from the sources).  Masking draws a random width bounded by the
configured maximum and a random band start; normalization subtracts the
configured mean and divides by the configured std, raising `TypeError`
when either is `None`; noise adds a low-amplitude random constant. -/
def runSpecStage (st : SpecStage) (r : Rng) (s : Sample) : Except PyError (Rng × Sample) :=
  match st with
  | SpecStage.wav2fbank target_length melbins tf_co tf_shift =>
    match s.waveform with
    | none => Except.error (PyError.typeError "waveform missing")
    | some w =>
      let fb := rawFbank (w.headD []) melbins
      let fb := if tf_co then coarseDropoutTf fb else fb
      let fb := if tf_shift then affineShiftTf fb else fb
      Except.ok (r, { s with fbank := some (fixFrames target_length melbins fb) })
  | SpecStage.freqMask m =>
    match s.fbank with
    | none => Except.error (PyError.typeError "fbank missing")
    | some fb =>
      let cols := (fb.headD []).length
      let d1 := rdraw r
      let d2 := rdraw d1.2
      let width := d1.1 % (m + 1)
      let start := d2.1 % (cols - width + 1)
      Except.ok (d2.2, { s with fbank := some (zeroColsBand fb start width) })
  | SpecStage.timeMask m =>
    match s.fbank with
    | none => Except.error (PyError.typeError "fbank missing")
    | some fb =>
      let d1 := rdraw r
      let d2 := rdraw d1.2
      let width := d1.1 % (m + 1)
      let start := d2.1 % (fb.length - width + 1)
      Except.ok (d2.2, { s with fbank := some (zeroRowsBand fb start width) })
  | SpecStage.normalize mo so =>
    match s.fbank with
    | none => Except.error (PyError.typeError "fbank missing")
    | some fb =>
      match mo, so with
      | some m, some sd =>
        Except.ok (r, { s with fbank := some (fb.map fun row => row.map fun x => (x - m) / sd) })
      | _, _ => Except.error (PyError.typeError "unsupported operand type for NoneType")
  | SpecStage.noiseAdd =>
    match s.fbank with
    | none => Except.error (PyError.typeError "fbank missing")
    | some fb =>
      let d := rdraw r
      Except.ok (d.2,
        { s with fbank := some (fb.map fun row => row.map fun x =>
            x + ((d.1 % 10 : Nat) : ℚ) / 100) })

/-- `transforms.Compose` over the spectrogram stage list. -/
def runSpecChain (l : List SpecStage) (r : Rng) (s : Sample) :
    Except PyError (Rng × Sample) :=
  l.foldlM (fun pr st => runSpecStage st pr.1 pr.2) (r, s)

/-- The index argument of `__getitem__`: either a plain integer or a
scalar torch tensor. -/
inductive IdxArg where
  | int (n : Nat) : IdxArg
  | tensor (n : Nat) : IdxArg
deriving DecidableEq, Repr

/-- Lines 241-242: `if torch.is_tensor(idx): idx = idx.tolist()`. -/
def normIdx : IdxArg → Nat
  | IdxArg.int n => n
  | IdxArg.tensor n => n

/-- `self.annotations_df[self.target_labels].iloc[idx].values` (line 245):
the selected label columns at the row, `KeyError` on an absent column,
NaN cells passed through as stored. -/
def selectTargets (t : AnnTable) (labels : List String) (i : Nat) :
    Except PyError (List PVal) :=
  labels.mapM fun l =>
    match t.columns.lookup l with
    | none => Except.error (PyError.keyError l)
    | some vs => Except.ok (vs.getD i PVal.nan)

/-- The sample dictionary assembled at lines 247-250. -/
def initSample (uid : String) (targets : List PVal) : Sample :=
  { uid := uid, targets := targets, waveform := none, sample_rate := 0, fbank := none }

/-- `AudioDataset.__getitem__` (lines 222-258): tensor index conversion,
uid and target resolution from the annotation table, then the standard
audio chain, the guarded augmentation chain, and the spectrogram chain;
every stage error propagates unchanged. -/
def AudioDataset.getitem (ctx : Ctx) (d : AudioDataset) (idx : IdxArg) (r : Rng) :
    Except PyError Sample :=
  if normIdx idx < d.ann_df.index.length then
    match selectTargets d.ann_df d.target_labels (normIdx idx) with
    | Except.error e => Except.error e
    | Except.ok targets =>
      match runAudioChain ctx d.audio_transform
          (initSample (d.ann_df.index.getD (normIdx idx) "") targets) with
      | Except.error e => Except.error e
      | Except.ok s1 =>
        match runSpecChain d.spec_transform (applyAlGuard d.al_transform r s1).1
            (applyAlGuard d.al_transform r s1).2 with
        | Except.error e => Except.error e
        | Except.ok rs => Except.ok rs.2
  else Except.error PyError.indexError

/-- `__getitem__` with the instance state threaded explicitly: the method
body contains no assignment to any `self` attribute, so the state after
the call is the state before it. -/
def AudioDataset.getitemS (ctx : Ctx) (d : AudioDataset) (idx : IdxArg) (r : Rng) :
    (Except PyError Sample) × AudioDataset :=
  (d.getitem ctx idx r, d)

/-- `AudioDataset.__len__` (lines 261-262): `len(self.annotations_df)`,
the number of rows of the annotation table. -/
def AudioDataset.len (d : AudioDataset) : Nat := d.ann_df.index.length

/-- Boolean shape check: `fb` has exactly `t` rows, each of length `m`. -/
def fbankShapeb (fb : List (List ℚ)) (t m : Nat) : Bool :=
  fb.length == t && fb.all fun row => row.length == m

/-! ## Stage tags and chain-structure lemmas -/

/-- Kinds of standard audio stages, forgetting parameters. -/
inductive AudioTag where
  | loadT | monoT | resampleT | truncateT | tensorT | meanT
deriving DecidableEq, Repr

/-- The kind of a standard audio stage. -/
def AudioStage.tag : AudioStage → AudioTag
  | AudioStage.uidToWaveform => AudioTag.loadT
  | AudioStage.toMonophonic => AudioTag.monoT
  | AudioStage.resample _ => AudioTag.resampleT
  | AudioStage.truncate _ => AudioTag.truncateT
  | AudioStage.toTensor => AudioTag.tensorT
  | AudioStage.waveMean => AudioTag.meanT

/-- Kinds of augmentation stages, forgetting probabilities. -/
inductive AlTag where
  | tshiftT | speedT | gaussT | pshiftT | gainT | stretchT
deriving DecidableEq, Repr

/-- The kind of an augmentation stage. -/
def AlStage.tag : AlStage → AlTag
  | AlStage.timeShifting _ => AlTag.tshiftT
  | AlStage.speedTuning _ => AlTag.speedT
  | AlStage.addGaussianNoise _ => AlTag.gaussT
  | AlStage.pitchShift _ _ => AlTag.pshiftT
  | AlStage.gainStage _ => AlTag.gainT
  | AlStage.stretchAudio _ => AlTag.stretchT

/-- Kinds of spectrogram stages, forgetting parameters. -/
inductive SpecTag where
  | fbankT | freqT | timeT | normT | noiseT
deriving DecidableEq, Repr

/-- The kind of a spectrogram stage. -/
def SpecStage.tag : SpecStage → SpecTag
  | SpecStage.wav2fbank _ _ _ _ => SpecTag.fbankT
  | SpecStage.freqMask _ => SpecTag.freqT
  | SpecStage.timeMask _ => SpecTag.timeT
  | SpecStage.normalize _ _ => SpecTag.normT
  | SpecStage.noiseAdd => SpecTag.noiseT

/-! ## Concrete example objects for witnesses and counterexamples -/

/-- Example target label list. -/
def exLabels : List String := ["l1", "l2"]

/-- Example annotation table: one row, uid `u1`, one numeric label and one
NaN label. -/
def exTable : AnnTable :=
  { index := ["u1"], columns := [("l1", [PVal.num 1]), ("l2", [PVal.nan])] }

/-- Example storage holding `u1` as a mono two-sample waveform. -/
def exCtx : Ctx := { files := [("u1", ([[1, 2]], 16000))] }

/-- Example storage with no files at all. -/
def exCtxEmpty : Ctx := { files := [] }

/-- Example configuration: everything optional disabled, normalization
skipped, 2 mel bins, 3 target frames. -/
def exConf : AudioConf :=
  { resample_rate := 0, reduce := false, clip_length := 0,
    tshift := 0, speed := 0, gauss := 0, pshift := 0, pshiftn := 0, gain := 0,
    stretch := 0, num_mel_bins := 2, freqm := 0, timem := 0,
    mean := none, std := none, skip_norm := some true, noise := false,
    target_length := 3 }

/-- Example configuration with normalization requested (`skip_norm`
absent) but `mean` and `std` absent. -/
def exConfNoStats : AudioConf :=
  { exConf with skip_norm := none, mean := none, std := none }

/-- Example configuration with a frequency-mask width (1000) and a
time-mask width (1000) far exceeding the feature dimensions (128 mel bins,
100 frames), with statistics supplied. -/
def exConfBigMask : AudioConf :=
  { exConf with
    skip_norm := none
    mean := some 0
    std := some 1
    num_mel_bins := 128
    target_length := 100
    freqm := 1000
    timem := 1000 }

/-- Example configuration enabling frequency and time masking. -/
def exConfM : AudioConf := { exConf with freqm := 1, timem := 1, reduce := true }

/-- The dataset object built from `exConf` over `exTable`. -/
def exDs : AudioDataset :=
  { ann_df := exTable, target_labels := exLabels, pfx := "p",
    resample_rate := 0, reduce := false, clip_length := 0,
    tshift := 0, speed := 0, gauss := 0, pshift := 0, pshiftn := 0, gain := 0,
    stretch := 0, melbins := 2, freqm := 0, timem := 0,
    norm_mean := none, norm_std := none, skip_norm := true, noise := false,
    target_length := 3, label_num := 2, tf_co := false, tf_shift := false,
    audio_transform := [AudioStage.uidToWaveform, AudioStage.toTensor,
      AudioStage.waveMean],
    al_transform := [],
    spec_transform := [SpecStage.wav2fbank 3 2 false false] }

/-- Default sample used when extracting from an `Except`. -/
instance : Inhabited Sample := ⟨initSample "" []⟩

/-- The sample record `exDs.getitem exCtx (IdxArg.int 0) []` produces: uid
`u1`, targets `[num 1, nan]`, sample rate 16000, feature map
`[[-1/2, 1/2], [0, 0], [0, 0]]`. -/
def exSample : Sample :=
  (AudioDataset.getitem exCtx exDs (IdxArg.int 0) []).toOption.getD default

/-- A sample carrying a concrete feature map. -/
def exSampleFb : Sample :=
  { uid := "u1", targets := [], waveform := none, sample_rate := 16000,
    fbank := some [[1, 2], [3, 4]] }

/-- A sample carrying a concrete two-channel waveform. -/
def exSampleW : Sample :=
  { uid := "u1", targets := [], waveform := some [[1, 2], [3, 4]],
    sample_rate := 16000, fbank := none }

/-- Boolean success test for construction. -/
def isOkb : Except PyError AudioDataset → Bool
  | Except.ok _ => true
  | Except.error _ => false


/-- Normal form of the standard audio transform list. -/
theorem getaudiotransform_fst_eq (c : AudioConf) :
    (getaudiotransform c).1 =
      AudioStage.uidToWaveform ::
        ((if c.reduce then [AudioStage.toMonophonic] else []) ++
         (if c.resample_rate ≠ 0 then [AudioStage.resample c.resample_rate] else []) ++
         (if c.clip_length ≠ 0 then [AudioStage.truncate c.clip_length] else []) ++
         [AudioStage.toTensor, AudioStage.waveMean]) := by
  simp only [getaudiotransform]
  split_ifs <;> simp

/-- Normal form of the albumentations augmentation list. -/
theorem getaudiotransform_snd_eq (c : AudioConf) :
    (getaudiotransform c).2 =
      (if c.tshift ≠ 0 then [AlStage.timeShifting c.tshift] else []) ++
      (if c.speed ≠ 0 then [AlStage.speedTuning c.speed] else []) ++
      (if c.gauss ≠ 0 then [AlStage.addGaussianNoise c.gauss] else []) ++
      (if c.pshift ≠ 0 then [AlStage.pitchShift c.pshift c.pshiftn] else []) ++
      (if c.gain ≠ 0 then [AlStage.gainStage c.gain] else []) ++
      (if c.stretch ≠ 0 then [AlStage.stretchAudio c.stretch] else []) := by
  simp only [getaudiotransform]
  split_ifs <;> simp

/-- Normal form of the spectrogram transform list. -/
theorem getspectransform_eq (c : AudioConf) (tf_co tf_shift : Bool) :
    getspectransform c tf_co tf_shift =
      SpecStage.wav2fbank c.target_length c.num_mel_bins tf_co tf_shift ::
        ((if c.freqm ≠ 0 then [SpecStage.freqMask c.freqm] else []) ++
         (if c.timem ≠ 0 then [SpecStage.timeMask c.timem] else []) ++
         (if skipNormFlag c = false then [SpecStage.normalize c.mean c.std] else []) ++
         (if c.noise then [SpecStage.noiseAdd] else [])) := by
  simp only [getspectransform]
  split_ifs <;> simp

/-- Membership in a conditional singleton list. -/
theorem mem_ite_singleton {α : Type} (a b : α) (p : Prop) [Decidable p] :
    a ∈ (if p then [b] else []) ↔ p ∧ a = b := by
  split_ifs with h <;> simp [h]

/-- A conditional singleton list is a sublist of the singleton. -/
theorem ite_singleton_sublist {α : Type} (p : Prop) [Decidable p] (b : α) :
    List.Sublist (if p then [b] else []) [b] := by
  split_ifs <;> simp

/-- Tags of the standard audio transform list. -/
theorem audio_tags_eq (c : AudioConf) :
    ((getaudiotransform c).1).map AudioStage.tag =
      AudioTag.loadT ::
        ((if c.reduce then [AudioTag.monoT] else []) ++
         (if c.resample_rate ≠ 0 then [AudioTag.resampleT] else []) ++
         (if c.clip_length ≠ 0 then [AudioTag.truncateT] else []) ++
         [AudioTag.tensorT, AudioTag.meanT]) := by
  rw [getaudiotransform_fst_eq]
  split_ifs <;> simp [AudioStage.tag]

/-- Tags of the albumentations augmentation list. -/
theorem al_tags_eq (c : AudioConf) :
    ((getaudiotransform c).2).map AlStage.tag =
      (if c.tshift ≠ 0 then [AlTag.tshiftT] else []) ++
      (if c.speed ≠ 0 then [AlTag.speedT] else []) ++
      (if c.gauss ≠ 0 then [AlTag.gaussT] else []) ++
      (if c.pshift ≠ 0 then [AlTag.pshiftT] else []) ++
      (if c.gain ≠ 0 then [AlTag.gainT] else []) ++
      (if c.stretch ≠ 0 then [AlTag.stretchT] else []) := by
  rw [getaudiotransform_snd_eq]
  split_ifs <;> simp [AlStage.tag]

/-- Tags of the spectrogram transform list. -/
theorem spec_tags_eq (c : AudioConf) (tf_co tf_shift : Bool) :
    (getspectransform c tf_co tf_shift).map SpecStage.tag =
      SpecTag.fbankT ::
        ((if c.freqm ≠ 0 then [SpecTag.freqT] else []) ++
         (if c.timem ≠ 0 then [SpecTag.timeT] else []) ++
         (if skipNormFlag c = false then [SpecTag.normT] else []) ++
         (if c.noise then [SpecTag.noiseT] else [])) := by
  rw [getspectransform_eq]
  split_ifs <;> simp [SpecStage.tag]

/-! ## Claim theorems: chain construction (C2, C3, C4) -/

/-- C3: the signal transform chain applies waveform loading, then channel
reduction (summing all channels into one, output shape (1, samples)) iff
`reduce`, then resampling iff `resample_rate != 0`, then truncation iff
`clip_length != 0`, then tensor conversion, then mean centering, and no
stage appears out of this order. -/
theorem audio_chain_order (c : AudioConf) :
    (((getaudiotransform c).1).map AudioStage.tag).head? = some AudioTag.loadT ∧
    List.Sublist (((getaudiotransform c).1).map AudioStage.tag)
      [AudioTag.loadT, AudioTag.monoT, AudioTag.resampleT, AudioTag.truncateT,
       AudioTag.tensorT, AudioTag.meanT] ∧
    (AudioTag.monoT ∈ ((getaudiotransform c).1).map AudioStage.tag ↔ c.reduce = true) ∧
    (AudioTag.resampleT ∈ ((getaudiotransform c).1).map AudioStage.tag ↔ c.resample_rate ≠ 0) ∧
    (AudioTag.truncateT ∈ ((getaudiotransform c).1).map AudioStage.tag ↔ c.clip_length ≠ 0) ∧
    AudioTag.tensorT ∈ ((getaudiotransform c).1).map AudioStage.tag ∧
    AudioTag.meanT ∈ ((getaudiotransform c).1).map AudioStage.tag ∧
    (∀ ctx s w, s.waveform = some w → numSamples w ≠ 0 →
      runAudioStage ctx AudioStage.toMonophonic s =
        Except.ok { s with waveform := some [sumChannels w] }) := by
  rw [audio_tags_eq]
  refine ⟨rfl, ?_, ?_, ?_, ?_, ?_, ?_, ?_⟩
  · exact List.Sublist.cons₂ _
      (List.Sublist.append
        (List.Sublist.append
          (List.Sublist.append (ite_singleton_sublist _ _) (ite_singleton_sublist _ _))
          (ite_singleton_sublist _ _))
        (List.Sublist.refl _))
  · simp [List.mem_append, mem_ite_singleton]
  · simp [List.mem_append, mem_ite_singleton]
  · simp [List.mem_append, mem_ite_singleton]
  · simp [List.mem_append, mem_ite_singleton]
  · simp [List.mem_append, mem_ite_singleton]
  · intro ctx s w hw hn
    simp [runAudioStage, hw, hn]

/-- C4: each augmentation stage is in the chain iff its probability is
nonzero, in the fixed order time shift, speed, gaussian noise, pitch
shift, gain, stretch; with every probability zero the list is empty and
the guarded chain in `__getitem__` is an error-free pass-through. -/
theorem al_chain_order (c : AudioConf) :
    List.Sublist (((getaudiotransform c).2).map AlStage.tag)
      [AlTag.tshiftT, AlTag.speedT, AlTag.gaussT, AlTag.pshiftT, AlTag.gainT,
       AlTag.stretchT] ∧
    (AlTag.tshiftT ∈ ((getaudiotransform c).2).map AlStage.tag ↔ c.tshift ≠ 0) ∧
    (AlTag.speedT ∈ ((getaudiotransform c).2).map AlStage.tag ↔ c.speed ≠ 0) ∧
    (AlTag.gaussT ∈ ((getaudiotransform c).2).map AlStage.tag ↔ c.gauss ≠ 0) ∧
    (AlTag.pshiftT ∈ ((getaudiotransform c).2).map AlStage.tag ↔ c.pshift ≠ 0) ∧
    (AlTag.gainT ∈ ((getaudiotransform c).2).map AlStage.tag ↔ c.gain ≠ 0) ∧
    (AlTag.stretchT ∈ ((getaudiotransform c).2).map AlStage.tag ↔ c.stretch ≠ 0) ∧
    (c.tshift = 0 ∧ c.speed = 0 ∧ c.gauss = 0 ∧ c.pshift = 0 ∧ c.gain = 0 ∧ c.stretch = 0 →
      (getaudiotransform c).2 = [] ∧
        ∀ r s, applyAlGuard ((getaudiotransform c).2) r s = (r, s)) := by
  refine ⟨?_, ?_, ?_, ?_, ?_, ?_, ?_, ?_⟩
  · rw [al_tags_eq]
    exact List.Sublist.append
      (List.Sublist.append
        (List.Sublist.append
          (List.Sublist.append
            (List.Sublist.append (ite_singleton_sublist _ _) (ite_singleton_sublist _ _))
            (ite_singleton_sublist _ _))
          (ite_singleton_sublist _ _))
        (ite_singleton_sublist _ _))
      (ite_singleton_sublist _ _)
  · rw [al_tags_eq]; simp [List.mem_append, mem_ite_singleton]
  · rw [al_tags_eq]; simp [List.mem_append, mem_ite_singleton]
  · rw [al_tags_eq]; simp [List.mem_append, mem_ite_singleton]
  · rw [al_tags_eq]; simp [List.mem_append, mem_ite_singleton]
  · rw [al_tags_eq]; simp [List.mem_append, mem_ite_singleton]
  · rw [al_tags_eq]; simp [List.mem_append, mem_ite_singleton]
  · rintro ⟨h1, h2, h3, h4, h5, h6⟩
    have hempty : (getaudiotransform c).2 = [] := by
      rw [getaudiotransform_snd_eq]
      simp [h1, h2, h3, h4, h5, h6]
    exact ⟨hempty, fun r s => by simp [applyAlGuard, hempty]⟩

/-- C2: the spectrogram transform chain applies mel-filterbank conversion
first, then frequency masking iff `freqm != 0`, then time masking iff
`timem != 0`, then normalization (subtract mean, divide by std) iff
`skip_norm` is false, then noise injection onto the features iff `noise`
is enabled, in exactly this order. -/
theorem spec_chain_order (c : AudioConf) (tf_co tf_shift : Bool) :
    ((getspectransform c tf_co tf_shift).map SpecStage.tag).head? = some SpecTag.fbankT ∧
    List.Sublist ((getspectransform c tf_co tf_shift).map SpecStage.tag)
      [SpecTag.fbankT, SpecTag.freqT, SpecTag.timeT, SpecTag.normT, SpecTag.noiseT] ∧
    (SpecTag.freqT ∈ (getspectransform c tf_co tf_shift).map SpecStage.tag ↔ c.freqm ≠ 0) ∧
    (SpecTag.timeT ∈ (getspectransform c tf_co tf_shift).map SpecStage.tag ↔ c.timem ≠ 0) ∧
    (SpecTag.normT ∈ (getspectransform c tf_co tf_shift).map SpecStage.tag ↔
      skipNormFlag c = false) ∧
    (SpecTag.noiseT ∈ (getspectransform c tf_co tf_shift).map SpecStage.tag ↔
      c.noise = true) ∧
    (∀ r s fb m sd, s.fbank = some fb →
      runSpecStage (SpecStage.normalize (some m) (some sd)) r s =
        Except.ok (r, { s with fbank := some (fb.map fun row => row.map fun x => (x - m) / sd) })) ∧
    (∀ r s fb, s.fbank = some fb →
      runSpecStage SpecStage.noiseAdd r s =
        Except.ok ((rdraw r).2,
          { s with fbank := some (fb.map fun row => row.map fun x =>
              x + (((rdraw r).1 % 10 : Nat) : ℚ) / 100) })) := by
  refine ⟨?_, ?_, ?_, ?_, ?_, ?_, ?_, ?_⟩
  · rw [spec_tags_eq]; rfl
  · rw [spec_tags_eq]
    exact List.Sublist.cons₂ _
      (List.Sublist.append
        (List.Sublist.append
          (List.Sublist.append (ite_singleton_sublist _ _) (ite_singleton_sublist _ _))
          (ite_singleton_sublist _ _))
        (ite_singleton_sublist _ _))
  · rw [spec_tags_eq]; simp [List.mem_append, mem_ite_singleton]
  · rw [spec_tags_eq]; simp [List.mem_append, mem_ite_singleton]
  · rw [spec_tags_eq]; simp [List.mem_append, mem_ite_singleton]
  · rw [spec_tags_eq]; simp [List.mem_append, mem_ite_singleton]
  · intro r s fb m sd h
    simp [runSpecStage, h]
  · intro r s fb h
    simp [runSpecStage, h]

/-- C3 witness for `audio_chain_order`: with `reduce` enabled the mono
stage is in the chain, and on a concrete stereo sample the reduction
stage sums the channels into a single channel. -/
theorem audio_chain_order_witness :
    (AudioTag.monoT ∈ ((getaudiotransform exConfM).1).map AudioStage.tag) ∧
    runAudioStage exCtx AudioStage.toMonophonic exSampleW =
      Except.ok { exSampleW with waveform := some [sumChannels [[1, 2], [3, 4]]] } :=
  ⟨((audio_chain_order exConfM).2.2.1).mpr rfl,
   (audio_chain_order exConfM).2.2.2.2.2.2.2 exCtx exSampleW [[1, 2], [3, 4]] rfl
     (by decide)⟩

/-- C4 witness for `al_chain_order`: with all probabilities zero the
augmentation list is empty and the guarded step passes a concrete sample
through unchanged. -/
theorem al_chain_order_witness :
    (getaudiotransform exConf).2 = [] ∧
    applyAlGuard ((getaudiotransform exConf).2) [] exSampleFb = ([], exSampleFb) := by
  have h := (al_chain_order exConf).2.2.2.2.2.2.2 ⟨rfl, rfl, rfl, rfl, rfl, rfl⟩
  exact ⟨h.1, h.2 [] exSampleFb⟩

/-- C2 witness for `spec_chain_order`: with `freqm = 1` the frequency-mask
stage is in the chain, and normalization on a concrete feature map yields
`(x - mean) / std` entrywise. -/
theorem spec_chain_order_witness :
    (SpecTag.freqT ∈ (getspectransform exConfM false false).map SpecStage.tag) ∧
    runSpecStage (SpecStage.normalize (some 1) (some 2)) [] exSampleFb =
      Except.ok (([] : Rng),
        { exSampleFb with
          fbank := some ([[1, 2], [3, 4]].map fun row => row.map fun x => (x - 1) / 2) }) :=
  ⟨((spec_chain_order exConfM false false).2.2.1).mpr (by decide),
   (spec_chain_order exConfM false false).2.2.2.2.2.2.1 [] exSampleFb
     [[1, 2], [3, 4]] 1 2 rfl⟩

/-! ## Claim theorems: construction-time behaviour (C7, C8) -/

/-- C7 counterexample: a configuration whose masking widths (1000) exceed
the feature dimensions (128 mel bins, 100 frames) is accepted at
construction rather than rejected, and a configuration requesting
normalization without mean/std fails with a `TypeError`, not a dedicated
configuration error. -/
theorem config_validation_counterexample :
    isOkb (AudioDataset.init exTable exLabels exConfBigMask "p" false false) = true ∧
    AudioDataset.init exTable exLabels exConfNoStats "p" false false =
      Except.error
        (PyError.typeError "unsupported format string passed to NoneType.__format__") := by
  constructor
  · rfl
  · rfl

/-- C7 amended: construction with normalization requested and mean or std
absent fails eagerly, but with a `TypeError` raised incidentally by the
statistics print-formatting; any configuration with normalization skipped
or statistics supplied is accepted at construction with no validation of
masking widths against feature dimensions. -/
theorem config_validation_behavior (tbl : AnnTable) (labels : List String)
    (c : AudioConf) (ps : String) :
    (skipNormFlag c = false → c.mean = none ∨ c.std = none →
      AudioDataset.init tbl labels c ps false false =
        Except.error
          (PyError.typeError "unsupported format string passed to NoneType.__format__")) ∧
    (skipNormFlag c = true ∨ (c.mean ≠ none ∧ c.std ≠ none) →
      isOkb (AudioDataset.init tbl labels c ps false false) = true) := by
  constructor
  · intro h1 h2
    simp [AudioDataset.init, h1, h2]
  · intro h
    rcases h with h | ⟨hm, hs⟩
    · simp [AudioDataset.init, h, isOkb]
    · simp [AudioDataset.init, hm, hs, isOkb]

/-- C7 witness for `config_validation_behavior`: instantiated at
`exConfNoStats` (rejected with `TypeError`) and `exConfBigMask`
(accepted despite the oversized mask widths). -/
theorem config_validation_behavior_witness :
    AudioDataset.init exTable exLabels exConfNoStats "p" false false =
      Except.error
        (PyError.typeError "unsupported format string passed to NoneType.__format__") ∧
    isOkb (AudioDataset.init exTable exLabels exConfBigMask "p" false false) = true := by
  constructor
  · exact (config_validation_behavior exTable exLabels exConfNoStats "p").1
      (by rfl) (Or.inl (by rfl))
  · exact (config_validation_behavior exTable exLabels exConfBigMask "p").2
      (Or.inr ⟨by simp [exConfBigMask, exConf], by simp [exConfBigMask, exConf]⟩)

/-- C8: requesting coarse dropout or affine translation at construction
evaluates `torch.CoarseDropout` / `torch.Affine` (lines 113/118), which do
not exist in the `torch` module, so construction raises `AttributeError`
instead of succeeding; when both are absent the conversion stage is
deterministic given the waveform (it ignores the random stream). -/
theorem cdo_shift_construction_bug :
    AudioDataset.init exTable exLabels exConf "p" true false =
      Except.error (PyError.attributeError "module torch has no attribute CoarseDropout") ∧
    AudioDataset.init exTable exLabels exConf "p" false true =
      Except.error (PyError.attributeError "module torch has no attribute Affine") ∧
    (∀ t m r r2 s, Except.map Prod.snd (runSpecStage (SpecStage.wav2fbank t m false false) r s) =
      Except.map Prod.snd (runSpecStage (SpecStage.wav2fbank t m false false) r2 s)) := by
  refine ⟨rfl, rfl, ?_⟩
  intro t m r r2 s
  cases h : s.waveform <;> simp [runSpecStage, h, Except.map]

/-! ## Claim theorems: state immutability and index handling (C9, C10) -/

/-- C9: after construction, `__getitem__` and `__len__` leave the dataset
state unchanged — the method bodies assign no instance attribute — and no
data is carried across calls: a call on the post-call state behaves
exactly like a call on the original state. -/
theorem getitem_state_unchanged (ctx : Ctx) (d : AudioDataset) (idx : IdxArg) (r : Rng) :
    (AudioDataset.getitemS ctx d idx r).2 = d ∧
    AudioDataset.len ((AudioDataset.getitemS ctx d idx r).2) = AudioDataset.len d ∧
    (∀ ctx2 idx2 r2,
      AudioDataset.getitem ctx2 ((AudioDataset.getitemS ctx d idx r).2) idx2 r2 =
        AudioDataset.getitem ctx2 d idx2 r2) :=
  ⟨rfl, rfl, fun _ _ _ => rfl⟩

/-- C10: a torch-tensor index is converted with `tolist()` before any use
(lines 241-242), so `__getitem__` on a tensor holding `n` agrees exactly
with `__getitem__` on the integer `n`. -/
theorem getitem_tensor_index (ctx : Ctx) (d : AudioDataset) (n : Nat) (r : Rng) :
    AudioDataset.getitem ctx d (IdxArg.tensor n) r =
      AudioDataset.getitem ctx d (IdxArg.int n) r := rfl

/-! ## Shape lemmas for the spectrogram chain (towards C1) -/

/-- Unfolding of the boolean shape predicate. -/
theorem fbankShapeb_iff (fb : List (List ℚ)) (t m : Nat) :
    fbankShapeb fb t m = true ↔ fb.length = t ∧ ∀ row ∈ fb, row.length = m := by
  simp [fbankShapeb, List.all_eq_true]

/-- Each row of the raw mel filterbank has `melbins` entries. -/
theorem rawFbank_rows (wav : List ℚ) (m : Nat) :
    ∀ row ∈ rawFbank wav m, row.length = m := by
  intro row h
  rw [rawFbank, List.mem_map] at h
  obtain ⟨i, _, hrow⟩ := h
  rw [← hrow]
  simp

/-- A row of `List.mapIdx` comes from applying the function at some
index. -/
theorem mem_mapIdx_exists {α β : Type} (f : Nat → α → β) (l : List α) :
    ∀ b ∈ List.mapIdx f l, ∃ i, ∃ h : i < l.length, b = f i (l.get ⟨i, h⟩) := by
  intro b hb
  rw [List.mem_iff_getElem] at hb
  obtain ⟨i, hi, hget⟩ := hb
  rw [List.length_mapIdx] at hi
  refine ⟨i, hi, ?_⟩
  rw [← hget, List.getElem_mapIdx]
  rfl

/-- The frame-count fix produces exactly `target_length` rows of
`melbins` entries each, for any input frame count. -/
theorem fixFrames_shape (t m : Nat) (fb : List (List ℚ))
    (hr : ∀ row ∈ fb, row.length = m) :
    (fixFrames t m fb).length = t ∧ ∀ row ∈ fixFrames t m fb, row.length = m := by
  unfold fixFrames
  split_ifs with h
  · constructor
    · simp only [List.length_append, List.length_replicate]
      omega
    · intro row hrow
      rcases List.mem_append.mp hrow with h1 | h2
      · exact hr row h1
      · rw [List.eq_of_mem_replicate h2]
        simp
  · constructor
    · rw [List.length_take]
      omega
    · intro row hrow
      exact hr row ((List.take_sublist t fb).subset hrow)

/-- The conversion stage (no injected masking transforms) always emits a
feature map of shape `(target_length, melbins)` when it succeeds. -/
theorem wav2fbank_shape (t m : Nat) (r r2 : Rng) (s s2 : Sample)
    (h : runSpecStage (SpecStage.wav2fbank t m false false) r s = Except.ok (r2, s2)) :
    ∃ fb, s2.fbank = some fb ∧ fbankShapeb fb t m = true := by
  cases hw : s.waveform with
  | none => simp [runSpecStage, hw] at h
  | some w =>
    simp only [runSpecStage, hw, Bool.false_eq_true, if_false, Except.ok.injEq,
      Prod.mk.injEq] at h
    obtain ⟨-, hs⟩ := h
    refine ⟨fixFrames t m (rawFbank (w.headD []) m), ?_, ?_⟩
    · rw [← hs]
    · rw [fbankShapeb_iff]
      exact fixFrames_shape t m _ (rawFbank_rows _ m)

/-- Zeroing a band of frequency bins preserves the feature-map shape. -/
theorem zeroColsBand_shape (fb : List (List ℚ)) (a b t m : Nat)
    (hl : fb.length = t) (hr : ∀ row ∈ fb, row.length = m) :
    (zeroColsBand fb a b).length = t ∧ ∀ row ∈ zeroColsBand fb a b, row.length = m := by
  constructor
  · rw [zeroColsBand, List.length_map, hl]
  · intro row hrow
    rw [zeroColsBand, List.mem_map] at hrow
    obtain ⟨row0, h0, hrow⟩ := hrow
    rw [← hrow, List.length_mapIdx]
    exact hr row0 h0

/-- Zeroing a band of time frames preserves the feature-map shape. -/
theorem zeroRowsBand_shape (fb : List (List ℚ)) (a b t m : Nat)
    (hl : fb.length = t) (hr : ∀ row ∈ fb, row.length = m) :
    (zeroRowsBand fb a b).length = t ∧ ∀ row ∈ zeroRowsBand fb a b, row.length = m := by
  constructor
  · rw [zeroRowsBand, List.length_mapIdx, hl]
  · intro row hrow
    obtain ⟨i, hi, hrow⟩ := mem_mapIdx_exists _ fb row hrow
    rw [hrow]
    split_ifs
    · rw [List.length_map]
      exact hr _ (fb.get_mem _ hi)
    · exact hr _ (fb.get_mem _ hi)

/-- Every stage after the conversion stage preserves the feature-map
shape. -/
theorem runSpecStage_post_shape (st : SpecStage) (hst : SpecStage.tag st ≠ SpecTag.fbankT)
    (t m : Nat) (r r2 : Rng) (s s2 : Sample) (fb : List (List ℚ))
    (hfb : s.fbank = some fb) (hsh : fbankShapeb fb t m = true)
    (h : runSpecStage st r s = Except.ok (r2, s2)) :
    ∃ fb2, s2.fbank = some fb2 ∧ fbankShapeb fb2 t m = true := by
  rw [fbankShapeb_iff] at hsh
  obtain ⟨hl, hr⟩ := hsh
  cases st with
  | wav2fbank _ _ _ _ => exact absurd rfl hst
  | freqMask w =>
    simp only [runSpecStage, hfb, Except.ok.injEq, Prod.mk.injEq] at h
    obtain ⟨-, hs⟩ := h
    refine ⟨_, by rw [← hs], ?_⟩
    rw [fbankShapeb_iff]
    exact zeroColsBand_shape fb _ _ t m hl hr
  | timeMask w =>
    simp only [runSpecStage, hfb, Except.ok.injEq, Prod.mk.injEq] at h
    obtain ⟨-, hs⟩ := h
    refine ⟨_, by rw [← hs], ?_⟩
    rw [fbankShapeb_iff]
    exact zeroRowsBand_shape fb _ _ t m hl hr
  | normalize mo so =>
    cases mo with
    | none => simp [runSpecStage, hfb] at h
    | some mv =>
      cases so with
      | none => simp [runSpecStage, hfb] at h
      | some sv =>
        simp only [runSpecStage, hfb, Except.ok.injEq, Prod.mk.injEq] at h
        obtain ⟨-, hs⟩ := h
        refine ⟨_, by rw [← hs], ?_⟩
        rw [fbankShapeb_iff]
        constructor
        · rw [List.length_map, hl]
        · intro row hrow
          rw [List.mem_map] at hrow
          obtain ⟨row0, h0, hrow⟩ := hrow
          rw [← hrow, List.length_map]
          exact hr row0 h0
  | noiseAdd =>
    simp only [runSpecStage, hfb, Except.ok.injEq, Prod.mk.injEq] at h
    obtain ⟨-, hs⟩ := h
    refine ⟨_, by rw [← hs], ?_⟩
    rw [fbankShapeb_iff]
    constructor
    · rw [List.length_map, hl]
    · intro row hrow
      rw [List.mem_map] at hrow
      obtain ⟨row0, h0, hrow⟩ := hrow
      rw [← hrow, List.length_map]
      exact hr row0 h0

/-- A chain of post-conversion stages preserves the feature-map shape. -/
theorem runSpecChain_post_shape (t m : Nat) (l : List SpecStage)
    (hl : ∀ st ∈ l, SpecStage.tag st ≠ SpecTag.fbankT) :
    ∀ (r : Rng) (s : Sample) (fb : List (List ℚ)) (pr : Rng × Sample),
      s.fbank = some fb → fbankShapeb fb t m = true →
      runSpecChain l r s = Except.ok pr →
      ∃ fb2, pr.2.fbank = some fb2 ∧ fbankShapeb fb2 t m = true := by
  induction l with
  | nil =>
    intro r s fb pr hfb hsh h
    simp only [runSpecChain, List.foldlM_nil, pure, Except.pure, Except.ok.injEq] at h
    rw [← h]
    exact ⟨fb, hfb, hsh⟩
  | cons st l ih =>
    intro r s fb pr hfb hsh h
    rw [runSpecChain, List.foldlM_cons] at h
    cases hst : runSpecStage st r s with
    | error e =>
      rw [hst] at h
      simp only [bind, Except.bind] at h
      exact Except.noConfusion h
    | ok pr1 =>
      rw [hst] at h
      simp only [bind, Except.bind] at h
      obtain ⟨fb1, hfb1, hsh1⟩ :=
        runSpecStage_post_shape st (hl st (List.mem_cons_self st l)) t m r pr1.1 s pr1.2
          fb hfb hsh (by rw [hst])
      exact ih (fun x hx => hl x (List.mem_cons_of_mem st hx)) pr1.1 pr1.2 fb1 pr hfb1 hsh1 h
/-- The spectrogram chain of a configuration is the conversion stage
followed by stages that are not conversions. -/
theorem getspectransform_split (c : AudioConf) (tf_co tf_shift : Bool) :
    ∃ l, getspectransform c tf_co tf_shift =
        SpecStage.wav2fbank c.target_length c.num_mel_bins tf_co tf_shift :: l ∧
      ∀ st ∈ l, SpecStage.tag st ≠ SpecTag.fbankT := by
  refine ⟨_, getspectransform_eq c tf_co tf_shift, ?_⟩
  intro st hst
  simp only [List.mem_append, mem_ite_singleton] at hst
  rcases hst with ((⟨-, rfl⟩ | ⟨-, rfl⟩) | ⟨-, rfl⟩) | ⟨-, rfl⟩ <;> simp [SpecStage.tag]

/-- Unpacking a successful `__getitem__` call into its sequential steps:
index bound check, target resolution, audio chain, guarded augmentation
chain, spectrogram chain. -/
theorem getitem_ok_extract (ctx : Ctx) (d : AudioDataset) (idx : IdxArg) (r : Rng)
    (s : Sample) (h : AudioDataset.getitem ctx d idx r = Except.ok s) :
    normIdx idx < d.ann_df.index.length ∧
    ∃ tg s1 pr2,
      selectTargets d.ann_df d.target_labels (normIdx idx) = Except.ok tg ∧
      runAudioChain ctx d.audio_transform
        (initSample (d.ann_df.index.getD (normIdx idx) "") tg) = Except.ok s1 ∧
      runSpecChain d.spec_transform (applyAlGuard d.al_transform r s1).1
        (applyAlGuard d.al_transform r s1).2 = Except.ok pr2 ∧
      s = pr2.2 := by
  unfold AudioDataset.getitem at h
  split at h
  case isTrue hlt =>
    refine ⟨hlt, ?_⟩
    split at h
    · exact Except.noConfusion h
    next tg h1 =>
      split at h
      · exact Except.noConfusion h
      next s1 h2 =>
        split at h
        · exact Except.noConfusion h
        next pr2 h3 =>
          refine ⟨tg, s1, pr2, h1, h2, h3, ?_⟩
          exact (Except.ok.injEq _ _ ▸ h).symm
  case isFalse hlt => exact Except.noConfusion h

/-- The instance attributes a successful construction stores. -/
theorem init_ok_fields (tbl : AnnTable) (labels : List String) (c : AudioConf)
    (ps : String) (cdo shift : Bool) (d : AudioDataset)
    (h : AudioDataset.init tbl labels c ps cdo shift = Except.ok d) :
    d.ann_df = tbl ∧ d.target_labels = labels ∧
    d.audio_transform = (getaudiotransform c).1 ∧
    d.al_transform = (getaudiotransform c).2 ∧
    d.spec_transform = getspectransform c false false ∧
    d.target_length = c.target_length ∧ d.melbins = c.num_mel_bins := by
  unfold AudioDataset.init at h
  split_ifs at h
  cases h
  exact ⟨rfl, rfl, rfl, rfl, rfl, rfl, rfl⟩

/-- C1: for every sample a constructed dataset successfully produces, the
`fbank` feature array has shape exactly
`(target_length_frames, num_mel_bins)`, whatever the waveform duration. -/
theorem fbank_shape_invariant (tbl : AnnTable) (labels : List String) (c : AudioConf)
    (ps : String) (cdo shift : Bool) (d : AudioDataset) (ctx : Ctx) (idx : IdxArg)
    (r : Rng) (s : Sample)
    (hinit : AudioDataset.init tbl labels c ps cdo shift = Except.ok d)
    (hget : AudioDataset.getitem ctx d idx r = Except.ok s) :
    ∃ fb, s.fbank = some fb ∧ fbankShapeb fb c.target_length c.num_mel_bins = true := by
  obtain ⟨-, -, -, -, hspec, -, -⟩ := init_ok_fields tbl labels c ps cdo shift d hinit
  obtain ⟨-, tg, s1, pr2, -, -, h3, hs⟩ := getitem_ok_extract ctx d idx r s hget
  obtain ⟨l, hsplit, htail⟩ := getspectransform_split c false false
  rw [hspec, hsplit] at h3
  rw [runSpecChain, List.foldlM_cons] at h3
  cases hst : runSpecStage (SpecStage.wav2fbank c.target_length c.num_mel_bins false false)
      (applyAlGuard d.al_transform r s1).1 (applyAlGuard d.al_transform r s1).2 with
  | error e =>
    rw [hst] at h3
    simp only [bind, Except.bind] at h3
    exact Except.noConfusion h3
  | ok pr1 =>
    rw [hst] at h3
    simp only [bind, Except.bind] at h3
    obtain ⟨fb1, hfb1, hsh1⟩ :=
      wav2fbank_shape c.target_length c.num_mel_bins _ pr1.1 _ pr1.2 (by rw [hst])
    obtain ⟨fb2, hfb2, hsh2⟩ :=
      runSpecChain_post_shape c.target_length c.num_mel_bins l htail pr1.1 pr1.2 fb1 pr2
        hfb1 hsh1 h3
    exact ⟨fb2, by rw [hs]; exact hfb2, hsh2⟩

/-- C1 witness: the concrete dataset `exDs` produces `exSample` at index
0, whose feature map has shape `(3, 2)`. -/
theorem fbank_shape_invariant_witness :
    ∃ fb, exSample.fbank = some fb ∧
      fbankShapeb fb exConf.target_length exConf.num_mel_bins = true :=
  fbank_shape_invariant exTable exLabels exConf "p" false false exDs exCtx
    (IdxArg.int 0) [] exSample (by rfl) (by rfl)

/-! ## Identifier/target preservation through the chains (towards C5) -/

/-- No standard audio stage modifies the uid or the targets. -/
theorem runAudioStage_preserves (ctx : Ctx) (st : AudioStage) (s s2 : Sample)
    (h : runAudioStage ctx st s = Except.ok s2) :
    s2.uid = s.uid ∧ s2.targets = s.targets := by
  cases st <;> simp only [runAudioStage] at h <;> (repeat' split at h) <;>
    first
      | exact Except.noConfusion h
      | (injection h with h2; subst h2; exact ⟨rfl, rfl⟩)

/-- The standard audio chain preserves the uid and the targets. -/
theorem runAudioChain_preserves (ctx : Ctx) (l : List AudioStage) :
    ∀ s s2, runAudioChain ctx l s = Except.ok s2 →
      s2.uid = s.uid ∧ s2.targets = s.targets := by
  induction l with
  | nil =>
    intro s s2 h
    simp only [runAudioChain, List.foldlM_nil, pure, Except.pure, Except.ok.injEq] at h
    rw [← h]
    exact ⟨rfl, rfl⟩
  | cons st l ih =>
    intro s s2 h
    simp only [runAudioChain, List.foldlM_cons] at h
    cases hst : runAudioStage ctx st s with
    | error e =>
      rw [hst] at h
      simp only [bind, Except.bind] at h
      exact Except.noConfusion h
    | ok s1 =>
      rw [hst] at h
      simp only [bind, Except.bind] at h
      obtain ⟨hu1, ht1⟩ := runAudioStage_preserves ctx st s s1 hst
      obtain ⟨hu2, ht2⟩ := ih s1 s2 h
      exact ⟨hu2.trans hu1, ht2.trans ht1⟩

/-- No augmentation stage modifies the uid or the targets. -/
theorem runAlStage_preserves (st : AlStage) (r : Rng) (s : Sample) :
    ((runAlStage st r s).2).uid = s.uid ∧ ((runAlStage st r s).2).targets = s.targets := by
  unfold runAlStage
  cases hw : s.waveform with
  | none => exact ⟨rfl, rfl⟩
  | some w =>
    cases hb : (coin st.prob r).1 <;> simp [hb]

/-- The augmentation chain preserves the uid and the targets. -/
theorem runAlChain_preserves (l : List AlStage) :
    ∀ r s, ((runAlChain l r s).2).uid = s.uid ∧ ((runAlChain l r s).2).targets = s.targets := by
  induction l with
  | nil => intro r s; exact ⟨rfl, rfl⟩
  | cons st l ih =>
    intro r s
    simp only [runAlChain, List.foldl_cons]
    obtain ⟨hu1, ht1⟩ := runAlStage_preserves st r s
    obtain ⟨hu2, ht2⟩ := ih (runAlStage st r s).1 (runAlStage st r s).2
    exact ⟨hu2.trans hu1, ht2.trans ht1⟩

/-- The guarded augmentation step preserves the uid and the targets. -/
theorem applyAlGuard_preserves (l : List AlStage) (r : Rng) (s : Sample) :
    ((applyAlGuard l r s).2).uid = s.uid ∧ ((applyAlGuard l r s).2).targets = s.targets := by
  unfold applyAlGuard
  split_ifs
  · exact runAlChain_preserves l r s
  · exact ⟨rfl, rfl⟩

/-- No spectrogram stage modifies the uid or the targets. -/
theorem runSpecStage_preserves (st : SpecStage) (r : Rng) (s : Sample) (pr : Rng × Sample)
    (h : runSpecStage st r s = Except.ok pr) :
    pr.2.uid = s.uid ∧ pr.2.targets = s.targets := by
  cases st <;> simp only [runSpecStage] at h <;> (repeat' split at h) <;>
    first
      | exact Except.noConfusion h
      | (injection h with h2; subst h2; exact ⟨rfl, rfl⟩)

/-- The spectrogram chain preserves the uid and the targets. -/
theorem runSpecChain_preserves (l : List SpecStage) :
    ∀ r s pr, runSpecChain l r s = Except.ok pr →
      pr.2.uid = s.uid ∧ pr.2.targets = s.targets := by
  induction l with
  | nil =>
    intro r s pr h
    simp only [runSpecChain, List.foldlM_nil, pure, Except.pure, Except.ok.injEq] at h
    rw [← h]
    exact ⟨rfl, rfl⟩
  | cons st l ih =>
    intro r s pr h
    simp only [runSpecChain, List.foldlM_cons] at h
    cases hst : runSpecStage st r s with
    | error e =>
      rw [hst] at h
      simp only [bind, Except.bind] at h
      exact Except.noConfusion h
    | ok pr1 =>
      rw [hst] at h
      simp only [bind, Except.bind] at h
      obtain ⟨hu1, ht1⟩ := runSpecStage_preserves st r s pr1 hst
      obtain ⟨hu2, ht2⟩ := ih pr1.1 pr1.2 pr h
      exact ⟨hu2.trans hu1, ht2.trans ht1⟩

/-! ## Claim theorems: sample assembly and error propagation (C5, C6) -/

/-- C5: every successful `get(index)` resolves the uid and the target
vector from the annotation table row at the (normalized) index — targets
are exactly the stored label-column values with NaN passed through — and
`length()` is the annotation-table row count; the produced record carries
that uid and those targets through all three chains unchanged. -/
theorem getitem_resolution (ctx : Ctx) (tbl : AnnTable) (labels : List String)
    (c : AudioConf) (ps : String) (cdo shift : Bool) (d : AudioDataset) (idx : IdxArg)
    (r : Rng) (s : Sample)
    (hinit : AudioDataset.init tbl labels c ps cdo shift = Except.ok d)
    (hget : AudioDataset.getitem ctx d idx r = Except.ok s) :
    AudioDataset.len d = tbl.index.length ∧
    normIdx idx < tbl.index.length ∧
    s.uid = tbl.index.getD (normIdx idx) "" ∧
    selectTargets tbl labels (normIdx idx) = Except.ok s.targets := by
  obtain ⟨hdf, hlab, -, -, -, -, -⟩ := init_ok_fields tbl labels c ps cdo shift d hinit
  obtain ⟨hlt, tg, s1, pr2, h1, h2, h3, hs⟩ := getitem_ok_extract ctx d idx r s hget
  rw [hdf] at hlt h1 h2
  rw [hlab] at h1
  obtain ⟨hu1, ht1⟩ := runAudioChain_preserves ctx d.audio_transform _ s1 h2
  obtain ⟨hu2, ht2⟩ := applyAlGuard_preserves d.al_transform r s1
  obtain ⟨hu3, ht3⟩ := runSpecChain_preserves d.spec_transform _ _ pr2 h3
  refine ⟨?_, hlt, ?_, ?_⟩
  · rw [AudioDataset.len, hdf]
  · rw [hs, hu3, hu2, hu1]
    rfl
  · rw [hs, ht3, ht2, ht1]
    exact h1

/-- C5 witness: the concrete dataset resolves uid `u1` and targets
`[num 1, nan]` (the NaN cell untouched) at index 0, and its length is 1. -/
theorem getitem_resolution_witness :
    AudioDataset.len exDs = exTable.index.length ∧
    normIdx (IdxArg.int 0) < exTable.index.length ∧
    exSample.uid = exTable.index.getD (normIdx (IdxArg.int 0)) "" ∧
    selectTargets exTable exLabels (normIdx (IdxArg.int 0)) = Except.ok exSample.targets :=
  getitem_resolution exCtx exTable exLabels exConf "p" false false exDs (IdxArg.int 0)
    [] exSample (by rfl) (by rfl)

/-- C6: no error raised by a chain stage while producing a sample is
caught inside `get(index)`: once the index is in range and the targets
resolve, an error from the audio chain, or from the spectrogram chain run
after the guarded augmentation step, is returned unchanged by
`get(index)` — no substitute sample is produced. -/
theorem getitem_error_propagation (ctx : Ctx) (d : AudioDataset) (idx : IdxArg)
    (r : Rng) (tg : List PVal)
    (h1 : normIdx idx < d.ann_df.index.length)
    (h2 : selectTargets d.ann_df d.target_labels (normIdx idx) = Except.ok tg) :
    (∀ e, runAudioChain ctx d.audio_transform
        (initSample (d.ann_df.index.getD (normIdx idx) "") tg) = Except.error e →
      AudioDataset.getitem ctx d idx r = Except.error e) ∧
    (∀ e s1, runAudioChain ctx d.audio_transform
        (initSample (d.ann_df.index.getD (normIdx idx) "") tg) = Except.ok s1 →
      runSpecChain d.spec_transform (applyAlGuard d.al_transform r s1).1
        (applyAlGuard d.al_transform r s1).2 = Except.error e →
      AudioDataset.getitem ctx d idx r = Except.error e) := by
  constructor
  · intro e he
    unfold AudioDataset.getitem
    rw [if_pos h1, h2]
    dsimp only
    rw [he]
  · intro e s1 hok he
    unfold AudioDataset.getitem
    rw [if_pos h1, h2]
    dsimp only
    rw [hok]
    dsimp only
    rw [he]

/-- C6 witness: with empty storage the loading stage raises
`NotFoundError` for `u1`, and `get(0)` returns exactly that error. -/
theorem getitem_error_propagation_witness :
    AudioDataset.getitem exCtxEmpty exDs (IdxArg.int 0) [] =
      Except.error PyError.notFoundError :=
  (getitem_error_propagation exCtxEmpty exDs (IdxArg.int 0) [] [PVal.num 1, PVal.nan]
    (by decide) (by rfl)).1 PyError.notFoundError (by rfl)

end NaipSSAST
